import Mathlib

/-!
Verification of the AI-powered email agent backend (FastAPI + SQLAlchemy).

Shallow embedding: text is `List Char`, times are minutes as `Int` (or `Nat`
where only forward offsets occur), urgency scores are `ℚ` (every score the
Python code computes is an exact multiple of 1/2, so float arithmetic there
is exact and `ℚ` models it faithfully), database tables are Lean lists, and
Python functions that can fall off the end of a `try` block without hitting
a `return` are modelled with `Option` (`none` is Python `None`).
-/

namespace EmailAgent

/-- `leadsWith pat s` : the text `s` starts with the pattern `pat`
(Python `s.startswith(pat)`). -/
def leadsWith : List Char → List Char → Bool
  | [], _ => true
  | _ :: _, [] => false
  | p :: ps, c :: cs => p == c && leadsWith ps cs

/-- `hasSub pat s` : the pattern `pat` occurs as a contiguous substring of
`s` (Python `pat in s`). -/
def hasSub (pat : List Char) : List Char → Bool
  | [] => leadsWith pat []
  | c :: cs => leadsWith pat (c :: cs) || hasSub pat cs

/-- `scanNoNl alt s` : some suffix of `s`, reached from the start of `s`
without crossing a newline, satisfies `alt`.  This is the semantics of the
regex fragment `.*ALT` (re `.` does not match a newline). -/
def scanNoNl (alt : List Char → Bool) : List Char → Bool
  | [] => alt []
  | c :: cs => alt (c :: cs) || (c != '\n' && scanNoNl alt cs)

/-- `searchKwThen kw alt s` : semantics of `re.search("KW.*ALT", s)` for a
literal keyword `kw` — some occurrence of `kw` in `s` is followed, without
an intervening newline, by a position where `alt` matches. -/
def searchKwThen (kw : List Char) (alt : List Char → Bool) : List Char → Bool
  | [] => false
  | c :: cs => (leadsWith kw (c :: cs) && scanNoNl alt (List.drop kw.length (c :: cs)))
      || searchKwThen kw alt cs

/-- `litAlt alts s` : one of the literal alternatives matches at the start
of `s` (regex `(?:a|b|c)` with literal branches). -/
def litAlt (alts : List (List Char)) (s : List Char) : Bool :=
  alts.any (fun a => leadsWith a s)

/-- Match of `\d+ hour` at the start of the text: one or more digits, then
the literal " hour".  Together with a preceding "in " this is the semantics
of `in \d+ hours?` as an unanchored search (the trailing `s?` is optional,
so a match exists iff `in \d+ hour` occurs). -/
def digitsThenHour : List Char → Bool
  | [] => false
  | c :: cs => c.isDigit && (leadsWith (" hour").data cs || digitsThenHour cs)

/-- Match of the regex alternative `in \d+ hours?` at the start of the text. -/
def inHoursAt (s : List Char) : Bool :=
  leadsWith ("in ").data s && digitsThenHour (List.drop 3 s)

/-! ### NLPService (src/backend/app/services/nlp_service.py)

Urgency keyword sets, `NLPService.__init__` lines 27-31. -/

def highKeywords : List (List Char) :=
  [("urgent").data, ("asap").data, ("immediately").data, ("emergency").data,
   ("critical").data, ("deadline").data, ("today").data]

def mediumKeywords : List (List Char) :=
  [("soon").data, ("this week").data, ("important").data, ("please").data,
   ("need").data, ("required").data]

def lowKeywords : List (List Char) :=
  [("when you can").data, ("no rush").data, ("fyi").data,
   ("for your information").data]

/-- Regex `by (?:today|tomorrow|end of day|eod)` as an unanchored search:
equivalent to the presence of one of four literal substrings. -/
def timePattern1 (s : List Char) : Bool :=
  hasSub ("by today").data s || hasSub ("by tomorrow").data s ||
  hasSub ("by end of day").data s || hasSub ("by eod").data s

/-- Regex `deadline.*(?:today|tomorrow|this week)`. -/
def timePattern2 (s : List Char) : Bool :=
  searchKwThen ("deadline").data
    (litAlt [("today").data, ("tomorrow").data, ("this week").data]) s

/-- Regex `need.*(?:asap|immediately|urgently)`. -/
def timePattern3 (s : List Char) : Bool :=
  searchKwThen ("need").data
    (litAlt [("asap").data, ("immediately").data, ("urgently").data]) s

/-- Regex `meeting.*(?:today|tomorrow|in \d+ hours?)`. -/
def timePattern4 (s : List Char) : Bool :=
  searchKwThen ("meeting").data
    (fun t => litAlt [("today").data, ("tomorrow").data] t || inHoursAt t) s

def timePatterns : List (List Char → Bool) :=
  [timePattern1, timePattern2, timePattern3, timePattern4]

/-- `NLPService.calculate_urgency_score` (nlp_service.py lines 74-107),
transcribed clause by clause: base 5.0; the keyword loop adds 2.0 per
high keyword present, 1.0 per medium, subtracts 1.0 per low; 1.5 per
time-sensitive regex that matches the lowercased text; plus
`min(question_count * 0.5, 2.0)` counted on the original text; finally
`max(1.0, min(10.0, score))`. -/
def calculate_urgency_score (text : List Char) : ℚ :=
  let textLower := text.map Char.toLower
  let s1 : ℚ := highKeywords.foldl
    (fun sc kw => if hasSub kw textLower then sc + 2 else sc) 5
  let s2 := mediumKeywords.foldl
    (fun sc kw => if hasSub kw textLower then sc + 1 else sc) s1
  let s3 := lowKeywords.foldl
    (fun sc kw => if hasSub kw textLower then sc - 1 else sc) s2
  let s4 := timePatterns.foldl
    (fun sc p => if p textLower then sc + 3/2 else sc) s3
  let s5 := s4 + min (((text.filter (fun c => c == '?')).length : ℚ) * (1/2)) 2
  max 1 (min 10 s5)

/-- The urgency-score formula exactly as the spec words it: base 5.0, plus
2.0 times the number of high-urgency keywords present, plus 1.0 per medium,
minus 1.0 per low, plus 1.5 per matching time-sensitive pattern, plus
min(0.5 x question-mark count, 2.0), clamped to the interval from 1.0
to 10.0. -/
def specUrgencyScore (text : List Char) : ℚ :=
  let tl := text.map Char.toLower
  max 1 (min 10
    (5 + 2 * ((highKeywords.filter (fun kw => hasSub kw tl)).length : ℚ)
       + ((mediumKeywords.filter (fun kw => hasSub kw tl)).length : ℚ)
       - ((lowKeywords.filter (fun kw => hasSub kw tl)).length : ℚ)
       + (3/2) * ((timePatterns.filter (fun p => p tl)).length : ℚ)
       + min (((text.filter (fun c => c == '?')).length : ℚ) * (1/2)) 2))

/-- `NLPService.classify_priority` (nlp_service.py lines 109-118). -/
def classify_priority (text : List Char) : String :=
  let u := calculate_urgency_score text
  if u ≥ 7 then "high" else if u ≥ 4 then "medium" else "low"

/-! Category keyword sets, `NLPService.classify_category` lines 125-128. -/

def workKeywords : List (List Char) :=
  [("meeting").data, ("project").data, ("deadline").data, ("report").data,
   ("client").data, ("business").data, ("office").data]

def personalKeywords : List (List Char) :=
  [("family").data, ("friend").data, ("personal").data, ("vacation").data,
   ("birthday").data, ("wedding").data]

def promotionalKeywords : List (List Char) :=
  [("sale").data, ("discount").data, ("offer").data, ("promotion").data,
   ("deal").data, ("buy").data, ("shop").data]

def socialKeywords : List (List Char) :=
  [("linkedin").data, ("facebook").data, ("twitter").data, ("social").data,
   ("network").data, ("connect").data]

/-- Python `max(scores, key=scores.get)` over the insertion-ordered dict
work, personal, promotional, social: the fold keeps the current best and
replaces it only on a strictly greater score, so the first key attaining
the maximum wins. -/
def pyArgmax4 (w p m s : Nat) : String :=
  let b1 : String × Nat := ("work", w)
  let b2 := if p > b1.2 then ("personal", p) else b1
  let b3 := if m > b2.2 then ("promotional", m) else b2
  let b4 := if s > b3.2 then ("social", s) else b3
  b4.1

/-- `NLPService.classify_category` (nlp_service.py lines 120-142): count
the keywords of each of the four sets present in the lowercased text,
return `max(scores, key=scores.get)` when some score is positive,
otherwise "work". -/
def classify_category (text : List Char) : String :=
  let tl := text.map Char.toLower
  let w := workKeywords.countP (fun kw => hasSub kw tl)
  let p := personalKeywords.countP (fun kw => hasSub kw tl)
  let m := promotionalKeywords.countP (fun kw => hasSub kw tl)
  let s := socialKeywords.countP (fun kw => hasSub kw tl)
  if max (max (max w p) m) s > 0 then pyArgmax4 w p m s else "work"

/-- Argmax with ties broken by first declaration order, exactly as the
spec words it: the first category in the order work, personal,
promotional, social whose score equals the maximum; "work" when all four
scores are zero. -/
def specFirstMax4 (w p m s : Nat) : String :=
  let mx := max (max (max w p) m) s
  if mx = 0 then "work"
  else if w = mx then "work"
  else if p = mx then "personal"
  else if m = mx then "promotional"
  else "social"

/-- Category classification as the spec words it. -/
def specClassifyCategory (text : List Char) : String :=
  let tl := text.map Char.toLower
  specFirstMax4
    (workKeywords.countP (fun kw => hasSub kw tl))
    (personalKeywords.countP (fun kw => hasSub kw tl))
    (promotionalKeywords.countP (fun kw => hasSub kw tl))
    (socialKeywords.countP (fun kw => hasSub kw tl))

/-! ### Email model and reconciliation
(src/backend/app/models/email.py, src/backend/app/api/v1/endpoints/email.py) -/

/-- One item of a fetched Gmail batch, as produced by
`GmailService.fetch_emails` (fields already parsed). -/
structure GmailEmail where
  gmail_id : String
  sender : String
  recipient : String
  subject : String
  body : String
deriving DecidableEq

/-- A row of the `emails` table (models/email.py lines 25-61); fields the
reconciliation logic touches. -/
structure EmailRec where
  gmail_id : String
  user_id : Nat
  sender : String
  recipient : String
  subject : String
  body : String
  priority : String
  category : String
  urgency_score : ℚ

/-- Row built by `process_emails` (email.py lines 206-229): the NLP analysis
runs on `f"subject emailContent"` (`NLPService.analyze_email`, line 35). -/
def mkEmail (userId : Nat) (g : GmailEmail) : EmailRec :=
  let full := g.subject.data ++ (' ' :: g.body.data)
  { gmail_id := g.gmail_id, user_id := userId, sender := g.sender,
    recipient := g.recipient, subject := g.subject, body := g.body,
    priority := classify_priority full, category := classify_category full,
    urgency_score := calculate_urgency_score full }

/-- Schema fact: `Email.gmail_id = Column(String, unique=True, index=True)`
(models/email.py line 29). -/
def emailGmailIdUnique : Bool := true

/-- `process_emails` (email.py lines 196-248): for each fetched item, a
single existence lookup on `gmail_id`; skip when found, otherwise insert.
The table is the list of rows in insertion order. -/
def process_emails (userId : Nat) (batch : List GmailEmail) (db : List EmailRec) :
    List EmailRec :=
  batch.foldl
    (fun d g =>
      if d.any (fun e => e.gmail_id == g.gmail_id) then d
      else d ++ [mkEmail userId g])
    db

/-- `sync_emails` (email.py lines 77-117): fetches the batch, schedules
`process_emails` as a background task, and responds with
`count = len(gmail_emails)` (line 113) — the fetched count, computed
before any insertion happens.  Result: (reported count, table after the
background task runs). -/
def sync_emails (userId : Nat) (batch : List GmailEmail) (db : List EmailRec) :
    Nat × List EmailRec :=
  (batch.length, process_emails userId batch db)

/-! ### Summaries (src/backend/app/models/summary.py,
src/backend/app/api/v1/endpoints/summary.py) -/

/-- A row of `email_summaries`; only the columns the idempotence logic
reads. -/
structure SummaryRec where
  id : Nat
  email_id : Nat
deriving DecidableEq

/-- Schema fact: `EmailSummary.email_id = Column(Integer,
ForeignKey("emails.id"))` (models/summary.py line 12) carries NO
`unique=True` — unlike `Email.gmail_id`. -/
def emailSummaryEmailIdUnique : Bool := false

/-- State the summary endpoints act on: existing email ids and the
summaries table. -/
structure SummaryDB where
  emails : List Nat
  summaries : List SummaryRec
deriving DecidableEq

inductive SummaryResponse where
  | notFound
  | alreadyExists (summary_id : Nat)
  | started (email_id : Nat)
deriving DecidableEq

/-- The synchronous part of `generate_email_summary` (summary.py lines
45-72): 404 when the email is missing; "Summary already exists" without
enqueueing when a summary row for this email exists; otherwise enqueue the
background creation task.  Second component: whether the task was
enqueued. -/
def generate_email_summary (email_id : Nat) (db : SummaryDB) :
    SummaryResponse × Bool :=
  if db.emails.contains email_id then
    match db.summaries.find? (fun s => s.email_id == email_id) with
    | some s => (.alreadyExists s.id, false)
    | none => (.started email_id, true)
  else (.notFound, false)

/-- Background task `create_email_summary` (summary.py lines 128-186): it
re-checks that the email exists but does NOT re-check whether a summary
already exists before inserting. -/
def create_email_summary (email_id : Nat) (newId : Nat) (db : SummaryDB) :
    SummaryDB :=
  if db.emails.contains email_id then
    { db with summaries := db.summaries ++ [⟨newId, email_id⟩] }
  else db

/-- One sequential trigger-summarize call: endpoint check, then (after the
response) the enqueued background task, if any. -/
def triggerSummarize (email_id : Nat) (newId : Nat) (db : SummaryDB) :
    SummaryResponse × SummaryDB :=
  let r := generate_email_summary email_id db
  (r.1, if r.2 then create_email_summary email_id newId db else db)

/-! ### LLMService (src/backend/app/services/llm_service.py) -/

/-- Outcome of a Python expression: a value, or a raised exception. -/
inductive PyResult (α : Type) where
  | ok (a : α)
  | exn
deriving DecidableEq

/-- A task object of the extraction schema (llm_service.py lines 120-127);
optional fields are the ones read back with `.get(key, default)`, the due
date is already parsed to minutes. -/
structure TaskData where
  title : String
  description : Option String
  due_date : Option Int
  type : Option String
  priority : Option String
deriving DecidableEq

/-- An event object of the extraction schema (llm_service.py lines
129-139); times in minutes. -/
structure EventData where
  title : String
  description : Option String
  start_time : Option Int
  end_time : Option Int
  location : Option String
  attendees : Option (List String)
deriving DecidableEq

structure Extracted where
  tasks : List TaskData
  events : List EventData
deriving DecidableEq

/-- `LLMService.extract_tasks_and_events` (llm_service.py lines 110-162).
The provider interaction is the parameter `callResult`: the outer
`PyResult` is the `openai.ChatCompletion.acreate` call (which can raise),
the inner one is `json.loads` on the returned content (which can raise).
Both raises are caught by the `except` and turn into
`some (tasks := [], events := [])`.  When `OPENAI_API_KEY` is not
configured the `if` body is skipped, nothing raises, and the function
falls off the end of the `try` block: Python returns `None`, embedded as
`none`. -/
def extract_tasks_and_events (openaiConfigured : Bool)
    (callResult : PyResult (PyResult Extracted)) : Option Extracted :=
  if openaiConfigured then
    match callResult with
    | .ok (.ok r) => some r
    | .ok .exn => some ⟨[], []⟩
    | .exn => some ⟨[], []⟩
  else none

/-- `LLMService._fallback_reply` (llm_service.py lines 203-210):
`replies.get(tone, replies["professional"])`. -/
def fallback_reply (tone : String) : String :=
  if tone == "professional" then
    "Thank you for your email. I will review this and get back to you soon."
  else if tone == "friendly" then
    "Hi! Thanks for reaching out. I\x27ll take a look at this and respond shortly."
  else if tone == "brief" then
    "Thanks for the email. Will respond soon."
  else
    "Thank you for your email. I will review this and get back to you soon."

/-- `LLMService.generate_reply` (llm_service.py lines 58-108): with the
OpenAI key configured the OpenAI call is made (a raise is caught and
answered with `_fallback_reply tone`); otherwise, with the Anthropic key
configured, the Anthropic call; with neither configured no branch of the
`if`/`elif` runs, nothing raises, and the function falls off the end of
the `try`: Python returns `None` (`none`).  `callResult` is the provider
call, already `.strip()`-ed on success. -/
def generate_reply (tone : String) (openaiConfigured anthropicConfigured : Bool)
    (callResult : PyResult String) : Option String :=
  if openaiConfigured then
    match callResult with
    | .ok s => some s
    | .exn => some (fallback_reply tone)
  else if anthropicConfigured then
    match callResult with
    | .ok s => some s
    | .exn => some (fallback_reply tone)
  else none

/-! ### Reminders and calendar events
(src/backend/app/models/reminder.py,
src/backend/app/api/v1/endpoints/reminders.py).  Times are minutes as
`Int`; 1 hour = 60, 1 day = 1440, 7 days = 10080. -/

/-- A row of `reminders` (models/reminder.py lines 21-58) with the
column defaults of the model. -/
structure ReminderRec where
  user_id : Nat
  email_id : Option Nat
  title : String
  description : String
  due_date : Int
  reminder_time : Int
  type : String
  priority : String
  is_completed : Bool := false
  completed_at : Option Int := none
  is_snoozed : Bool := false
  snooze_until : Option Int := none
deriving DecidableEq

/-- A row of `calendar_events` (models/reminder.py lines 60-88). -/
structure CalendarEventRec where
  user_id : Nat
  title : String
  description : String
  start_time : Int
  end_time : Int
  location : Option String
  attendees : List String
  created_from_email : Option Nat
deriving DecidableEq

structure RemDB where
  reminders : List ReminderRec
  events : List CalendarEventRec
deriving DecidableEq

/-- Body of the task loop of `process_email_for_reminders` (reminders.py
lines 230-254): due date defaults to now + 7 days, notification time is
due - 2 hours, `.get` defaults for description/type/priority. -/
def taskStep (now : Int) (userId emailId : Nat) (d : RemDB) (t : TaskData) :
    RemDB :=
  let due := t.due_date.getD (now + 10080)
  { d with reminders := d.reminders ++
      [{ user_id := userId, email_id := some emailId, title := t.title,
         description := t.description.getD "", due_date := due,
         reminder_time := due - 120, type := t.type.getD "task",
         priority := t.priority.getD "medium" }] }

/-- Body of the event loop of `process_email_for_reminders` (reminders.py
lines 257-297): `continue` (no insertion at all) when `start_time` is
missing; otherwise end time defaults to start + 1 hour, and both a
`CalendarEvent` and a companion reminder notifying at start - 15 minutes
are inserted. -/
def eventStep (userId emailId : Nat) (d : RemDB) (e : EventData) : RemDB :=
  match e.start_time with
  | none => d
  | some st =>
      let en := e.end_time.getD (st + 60)
      { d with
        events := d.events ++
          [{ user_id := userId, title := e.title,
             description := e.description.getD "", start_time := st,
             end_time := en, location := e.location,
             attendees := e.attendees.getD [],
             created_from_email := some emailId }],
        reminders := d.reminders ++
          [{ user_id := userId, email_id := some emailId,
             title := "Meeting: " ++ e.title,
             description := "Upcoming meeting at " ++ toString st,
             due_date := st, reminder_time := st - 15,
             type := "meeting", priority := "medium" }] }

/-- `process_email_for_reminders` (reminders.py lines 218-304): the task
loop, then the event loop.  `extracted = none` models the
unconfigured-provider path: the code then calls `.get` on `None`, the
`AttributeError` reaches the outer `except`, `db.rollback()` runs and the
state is unchanged. -/
def process_email_for_reminders (now : Int) (userId emailId : Nat)
    (extracted : Option Extracted) (db : RemDB) : RemDB :=
  match extracted with
  | none => db
  | some ex =>
      ex.events.foldl (eventStep userId emailId)
        (ex.tasks.foldl (taskStep now userId emailId) db)

/-- The reminder `process_email_for_reminders` builds from one task, as
the (amended) spec words it. -/
def specTaskReminder (now : Int) (userId emailId : Nat) (t : TaskData) :
    ReminderRec :=
  let due := t.due_date.getD (now + 10080)
  { user_id := userId, email_id := some emailId, title := t.title,
    description := t.description.getD "", due_date := due,
    reminder_time := due - 120, type := t.type.getD "task",
    priority := t.priority.getD "medium" }

/-- The calendar event built from one extracted event (none when the event
has no start time), as the (amended) spec words it. -/
def specEventRecord (userId emailId : Nat) (e : EventData) :
    Option CalendarEventRec :=
  match e.start_time with
  | none => none
  | some st =>
      some { user_id := userId, title := e.title,
             description := e.description.getD "", start_time := st,
             end_time := e.end_time.getD (st + 60), location := e.location,
             attendees := e.attendees.getD [],
             created_from_email := some emailId }

/-- The companion reminder built from one extracted event (none when the
event has no start time), as the (amended) spec words it. -/
def specEventReminder (userId emailId : Nat) (e : EventData) :
    Option ReminderRec :=
  match e.start_time with
  | none => none
  | some st =>
      some { user_id := userId, email_id := some emailId,
             title := "Meeting: " ++ e.title,
             description := "Upcoming meeting at " ++ toString st,
             due_date := st, reminder_time := st - 15,
             type := "meeting", priority := "medium" }

/-- `UpdateReminderRequest` (reminders.py lines 36-41): every field
optional; `None` means "leave unchanged". -/
structure UpdateReq where
  title : Option String := none
  description : Option String := none
  due_date : Option Int := none
  priority : Option String := none
  is_completed : Option Bool := none
deriving DecidableEq

/-- `update_reminder` (reminders.py lines 100-127): each non-`None` request
field overwrites the column; `completed_at` is stamped only when
`is_completed` is set to true.  Note no field of the request touches
`is_snoozed` or `snooze_until`. -/
def update_reminder (now : Int) (req : UpdateReq) (r : ReminderRec) :
    ReminderRec :=
  { r with
    title := req.title.getD r.title,
    description := req.description.getD r.description,
    due_date := req.due_date.getD r.due_date,
    priority := req.priority.getD r.priority,
    is_completed := req.is_completed.getD r.is_completed,
    completed_at := if req.is_completed = some true then some now else r.completed_at }

/-- `complete_reminder` (reminders.py lines 141-153). -/
def complete_reminder (now : Int) (r : ReminderRec) : ReminderRec :=
  { r with is_completed := true, completed_at := some now }

/-- `snooze_reminder` (reminders.py lines 155-171): sets the flag and the
timestamp; no endpoint ever resets `is_snoozed` to false. -/
def snooze_reminder (snooze_until : Int) (r : ReminderRec) : ReminderRec :=
  { r with is_snoozed := true, snooze_until := some snooze_until }

/-- The mutating operations the reminders API offers on an existing row. -/
inductive RemOp where
  | update (now : Int) (req : UpdateReq)
  | complete (now : Int)
  | snooze (t : Int)
deriving DecidableEq

def applyOp : RemOp → ReminderRec → ReminderRec
  | .update now req, r => update_reminder now req r
  | .complete now, r => complete_reminder now r
  | .snooze t, r => snooze_reminder t r

def applyOps (ops : List RemOp) (r : ReminderRec) : ReminderRec :=
  ops.foldl (fun r op => applyOp op r) r

/-- Row filter of `get_overdue_reminders` (reminders.py lines 189-199):
`due_date < now AND is_completed = false AND is_snoozed = false` — the
snooze-until column is not consulted. -/
def overdueFilter (now : Int) (r : ReminderRec) : Bool :=
  decide (r.due_date < now) && !r.is_completed && !r.is_snoozed

/-- Row filter of `get_upcoming_reminders` (reminders.py lines 201-216):
`due_date BETWEEN now AND now + hours` (inclusive), not completed, not
snoozed — again without consulting snooze-until. -/
def upcomingFilter (now hours : Int) (r : ReminderRec) : Bool :=
  decide (now ≤ r.due_date) && decide (r.due_date ≤ now + hours * 60) &&
  !r.is_completed && !r.is_snoozed

/-- `get_overdue_reminders`: (count, rows).  (The endpoint returns the
filtered rows; ordering of the underlying table is preserved.) -/
def get_overdue_reminders (now : Int) (db : List ReminderRec) :
    Nat × List ReminderRec :=
  ((db.filter (overdueFilter now)).length, db.filter (overdueFilter now))

/-- `get_upcoming_reminders`: (count, rows); the `order_by(due_date)` of
the endpoint only reorders the rows and is omitted — the claims here are
about membership. -/
def get_upcoming_reminders (now hours : Int) (db : List ReminderRec) :
    Nat × List ReminderRec :=
  ((db.filter (upcomingFilter now hours)).length,
   db.filter (upcomingFilter now hours))

/-! ### Local free-time scan
(src/backend/app/api/v1/endpoints/calendar.py lines 278-329, the
no-Google-token fallback).  Absolute minutes; a day is 1440 minutes, day
`d` runs from `d * 1440`; 9am = 540, 5pm = 1020.  Days are numbered so
that `d % 7` is Python's `date.weekday()` (0 = Monday, ..., 6 = Sunday);
`d % 7 < 5` is the Monday-to-Friday check of line 303. -/

/-- Slot starts of one day: the `while slot_start + duration <= day_end`
loop of lines 308-325, stepping one hour.  The loop condition is monotone
in the step index, and for a `Nat` duration the loop body can run at most
9 times (starts 540, 600, ..., 1020 relative to the day), so the bounded
enumeration below is exactly the loop. -/
def slotStarts (dayStart dayEnd duration : Nat) : List Nat :=
  (List.range 9).filterMap (fun k =>
    if dayStart + 60 * k + duration ≤ dayEnd then some (dayStart + 60 * k)
    else none)

/-- The `free_slots` list built by `find_free_time` before truncation:
weekday 9am-5pm scan, conflict-checked against the busy intervals with the
open-interval test `slot_start < event.end_time and slot_end >
event.start_time` (line 315). -/
def free_slots_enum (startDay daysAhead duration : Nat)
    (busy : List (Nat × Nat)) : List (Nat × Nat) :=
  (List.range daysAhead).flatMap (fun day =>
    let d := startDay + day
    if d % 7 < 5 then
      (slotStarts (d * 1440 + 540) (d * 1440 + 1020) duration).filterMap
        (fun s =>
          if busy.any (fun b => decide (s < b.2) && decide (s + duration > b.1))
          then none
          else some (s, s + duration))
    else [])

/-- `find_free_time` local fallback (calendar.py lines 288-329): the scan
above, truncated to the first 10 slots (`free_slots[:10]`, line 329). -/
def find_free_time (startDay daysAhead duration : Nat)
    (busy : List (Nat × Nat)) : List (Nat × Nat) :=
  (free_slots_enum startDay daysAhead duration busy).take 10

/-! ### Helper lemmas -/

theorem foldl_if_add {α : Type} (p : α → Bool) (c : ℚ) (l : List α) :
    ∀ init : ℚ,
      l.foldl (fun sc a => if p a then sc + c else sc) init
        = init + c * ((l.filter p).length : ℚ) := by
  induction l with
  | nil => intro init; simp
  | cons a t ih =>
      intro init
      by_cases h : p a
      · simp only [List.foldl_cons, List.filter_cons, h, if_true, ih, List.length_cons]
        push_cast
        ring
      · simp [h, ih]

theorem foldl_if_sub {α : Type} (p : α → Bool) (c : ℚ) (l : List α) :
    ∀ init : ℚ,
      l.foldl (fun sc a => if p a then sc - c else sc) init
        = init - c * ((l.filter p).length : ℚ) := by
  induction l with
  | nil => intro init; simp
  | cons a t ih =>
      intro init
      by_cases h : p a
      · simp only [List.foldl_cons, List.filter_cons, h, if_true, ih, List.length_cons]
        push_cast
        ring
      · simp [h, ih]

theorem pyArgmax4_spec (w p m s : Nat) :
    (if max (max (max w p) m) s > 0 then pyArgmax4 w p m s else "work")
      = specFirstMax4 w p m s := by
  simp only [pyArgmax4, specFirstMax4]
  split_ifs <;> first | rfl | (exfalso; omega)

theorem specFirstMax4_mem (w p m s : Nat) :
    specFirstMax4 w p m s ∈ (["work", "personal", "promotional", "social"] : List String) := by
  simp only [specFirstMax4]
  split_ifs <;> simp

/-! ### Claim theorems -/

/-- C1: for every input text, `NLPService.calculate_urgency_score` equals
the spec formula — base 5.0, +2.0 per high-urgency keyword present, +1.0
per medium, -1.0 per low, +1.5 per matching time-sensitive regex,
+min(0.5 x question marks, 2.0), clamped to the interval from 1.0 to
10.0 — and in particular the result always lies in that interval. -/
theorem urgency_score_matches_spec_and_bounded (text : List Char) :
    calculate_urgency_score text = specUrgencyScore text ∧
    1 ≤ calculate_urgency_score text ∧ calculate_urgency_score text ≤ 10 := by
  refine ⟨?_, ?_, ?_⟩
  · simp only [calculate_urgency_score, specUrgencyScore, foldl_if_add, foldl_if_sub]
    congr 1
    congr 1
    ring
  · simp only [calculate_urgency_score]
    exact le_max_left _ _
  · simp only [calculate_urgency_score]
    exact max_le (by norm_num) (min_le_left _ _)

/-- C7: for every input text, `NLPService.classify_category` returns one of
exactly the four labels work, personal, promotional, social, and equals
the spec description — argmax of the four keyword-set scores with ties
broken in the fixed declaration order, defaulting to "work" when all four
scores are zero. -/
theorem classify_category_matches_spec (text : List Char) :
    classify_category text = specClassifyCategory text ∧
    classify_category text ∈ (["work", "personal", "promotional", "social"] : List String) := by
  have h : classify_category text = specClassifyCategory text := by
    simp only [classify_category, specClassifyCategory]
    exact pyArgmax4_spec _ _ _ _
  refine ⟨h, ?_⟩
  rw [h]
  simp only [specClassifyCategory]
  exact specFirstMax4_mem _ _ _ _

/-! ### Reconciliation lemmas (C2, C6) -/

theorem process_emails_cons (u : Nat) (g : GmailEmail) (t : List GmailEmail)
    (db : List EmailRec) :
    process_emails u (g :: t) db =
      process_emails u t
        (if db.any (fun e => e.gmail_id == g.gmail_id) then db
         else db ++ [mkEmail u g]) := rfl

theorem process_emails_extends (u : Nat) :
    ∀ (batch : List GmailEmail) (db : List EmailRec),
      ∃ tail, process_emails u batch db = db ++ tail := by
  intro batch
  induction batch with
  | nil => intro db; exact ⟨[], by simp [process_emails]⟩
  | cons g t ih =>
      intro db
      rw [process_emails_cons]
      by_cases h : db.any (fun e => e.gmail_id == g.gmail_id)
      · rw [if_pos h]; exact ih db
      · rw [if_neg h]
        obtain ⟨tl, htl⟩ := ih (db ++ [mkEmail u g])
        exact ⟨mkEmail u g :: tl, by rw [htl, List.append_assoc]; rfl⟩

theorem process_emails_id_mem (u : Nat) :
    ∀ (batch : List GmailEmail) (db : List EmailRec) (gid : String),
      (∃ e ∈ process_emails u batch db, e.gmail_id = gid) ↔
        (∃ e ∈ db, e.gmail_id = gid) ∨ ∃ g ∈ batch, g.gmail_id = gid := by
  intro batch
  induction batch with
  | nil => intro db gid; simp [process_emails]
  | cons g t ih =>
      intro db gid
      rw [process_emails_cons]
      by_cases h : db.any (fun e => e.gmail_id == g.gmail_id)
      · rw [if_pos h, ih]
        have hg : ∃ e ∈ db, e.gmail_id = g.gmail_id := by
          obtain ⟨e, he, heq⟩ := List.any_eq_true.mp h
          exact ⟨e, he, by simpa using heq⟩
        constructor
        · rintro (hdb | ⟨g2, hm, hid⟩)
          · exact Or.inl hdb
          · exact Or.inr ⟨g2, List.mem_cons_of_mem _ hm, hid⟩
        · rintro (hdb | ⟨g2, hm, hid⟩)
          · exact Or.inl hdb
          · rcases List.mem_cons.mp hm with rfl | hm2
            · obtain ⟨e, he, heq⟩ := hg
              exact Or.inl ⟨e, he, by rw [heq, hid]⟩
            · exact Or.inr ⟨g2, hm2, hid⟩
      · rw [if_neg h, ih]
        constructor
        · rintro (⟨e, he, heq⟩ | ⟨g2, hm, hid⟩)
          · rcases List.mem_append.mp he with he2 | he2
            · exact Or.inl ⟨e, he2, heq⟩
            · have : e = mkEmail u g := by simpa using he2
              subst this
              exact Or.inr ⟨g, List.mem_cons_self g t, heq⟩
          · exact Or.inr ⟨g2, List.mem_cons_of_mem _ hm, hid⟩
        · rintro (⟨e, he, heq⟩ | ⟨g2, hm, hid⟩)
          · exact Or.inl ⟨e, List.mem_append_left _ he, heq⟩
          · rcases List.mem_cons.mp hm with rfl | hm2
            · exact Or.inl ⟨mkEmail u g2, List.mem_append_right _ (by simp), hid⟩
            · exact Or.inr ⟨g2, hm2, hid⟩

theorem process_emails_no_new (u : Nat) :
    ∀ (batch : List GmailEmail) (db : List EmailRec),
      (∀ g ∈ batch, ∃ e ∈ db, e.gmail_id = g.gmail_id) →
      process_emails u batch db = db := by
  intro batch
  induction batch with
  | nil => intro db _; rfl
  | cons g t ih =>
      intro db hall
      rw [process_emails_cons]
      have hg : db.any (fun e => e.gmail_id == g.gmail_id) = true := by
        obtain ⟨e, he, heq⟩ := hall g (List.mem_cons_self g t)
        exact List.any_eq_true.mpr ⟨e, he, by simp [heq]⟩
      rw [if_pos hg]
      exact ih db (fun g2 hm => hall g2 (List.mem_cons_of_mem _ hm))

theorem process_emails_length_le (u : Nat) :
    ∀ (batch : List GmailEmail) (db : List EmailRec),
      (process_emails u batch db).length ≤ db.length + batch.length := by
  intro batch
  induction batch with
  | nil => intro db; simp [process_emails]
  | cons g t ih =>
      intro db
      rw [process_emails_cons]
      by_cases h : db.any (fun e => e.gmail_id == g.gmail_id)
      · rw [if_pos h]
        have h1 := ih db
        simp only [List.length_cons]
        omega
      · rw [if_neg h]
        have h1 := ih (db ++ [mkEmail u g])
        simp only [List.length_append, List.length_cons, List.length_nil] at h1 ⊢
        omega

/-- C2: reconciliation of a fetched batch is insert-only (the previous
table is a prefix of the new one, so existing rows are never
overwritten), a gmail id is present afterwards iff it was present before
or occurs in the batch (dedupe on the external id alone), and re-running
the same batch is a no-op — the second run inserts zero records. -/
theorem process_emails_insert_only_idempotent (u : Nat)
    (batch : List GmailEmail) (db : List EmailRec) :
    (∃ tail, process_emails u batch db = db ++ tail) ∧
    (∀ gid, (∃ e ∈ process_emails u batch db, e.gmail_id = gid) ↔
      (∃ e ∈ db, e.gmail_id = gid) ∨ ∃ g ∈ batch, g.gmail_id = gid) ∧
    process_emails u batch (process_emails u batch db) =
      process_emails u batch db := by
  refine ⟨process_emails_extends u batch db, fun gid => process_emails_id_mem u batch db gid, ?_⟩
  apply process_emails_no_new
  intro g hg
  exact (process_emails_id_mem u batch db g.gmail_id).mpr (Or.inr ⟨g, hg, rfl⟩)

/-- C6 counterexample: a batch of one message whose gmail id is already
present locally.  The fetch-and-reconcile response reports count 1 (the
fetched count, email.py line 113) while zero records are newly inserted —
so the reported count is not the newly-inserted count. -/
theorem sync_emails_count_counterexample :
    (sync_emails 1 [⟨"g1", "a", "b", "s", "t"⟩]
        [mkEmail 1 ⟨"g1", "a", "b", "s", "t"⟩]).1 = 1 ∧
    (sync_emails 1 [⟨"g1", "a", "b", "s", "t"⟩]
        [mkEmail 1 ⟨"g1", "a", "b", "s", "t"⟩]).2
      = [mkEmail 1 ⟨"g1", "a", "b", "s", "t"⟩] ∧
    (1 : Nat) ≠ 0 :=
  ⟨rfl, rfl, by decide⟩

/-- C6 (amended): the fetch-and-reconcile operation reports the number of
FETCHED items — `len(gmail_emails)`, computed before the background
insertion runs — while the number of newly inserted records is only
bounded above by it. -/
theorem sync_emails_returns_fetched_count (u : Nat) (batch : List GmailEmail)
    (db : List EmailRec) :
    (sync_emails u batch db).1 = batch.length ∧
    ∃ inserted, (sync_emails u batch db).2 = db ++ inserted ∧
      inserted.length ≤ batch.length := by
  refine ⟨rfl, ?_⟩
  obtain ⟨tail, htail⟩ := process_emails_extends u batch db
  refine ⟨tail, htail, ?_⟩
  have h1 := process_emails_length_le u batch db
  rw [htail] at h1
  simp only [List.length_append] at h1
  omega

/-! ### Summary idempotence (C3) -/

/-- C3 counterexample: the claim asserts no Message can ever have two
Summaries *even under concurrent invocation* because uniqueness on
`email_id` is enforced.  But `EmailSummary.email_id` carries no unique
constraint (models/summary.py line 12), and the background
`create_email_summary` inserts without re-checking.  Interleaving two
trigger calls on email 1 (both endpoint existence checks run on the
initial state, then both enqueued creation tasks run) yields two Summary
rows for email 1. -/
theorem summary_concurrent_duplicate_counterexample :
    (generate_email_summary 1 ⟨[1], []⟩).2 = true ∧
    ((create_email_summary 1 11 (create_email_summary 1 10 ⟨[1], []⟩)).summaries.countP
      (fun s => s.email_id == 1)) = 2 ∧
    emailSummaryEmailIdUnique = false :=
  ⟨rfl, rfl, rfl⟩

/-- C3 (amended): sequentially, a second trigger-summarize call on a
Message that already has a Summary answers "already exists" and leaves
the store unchanged — no second Summary is created.  (The concurrency
half of the original claim fails: uniqueness of the owning message
reference is not schema-enforced.) -/
theorem trigger_summarize_idempotent (email_id newId : Nat) (db : SummaryDB)
    (hmem : email_id ∈ db.emails)
    (h : ∃ s ∈ db.summaries, s.email_id = email_id) :
    ∃ sid, triggerSummarize email_id newId db =
      (SummaryResponse.alreadyExists sid, db) := by
  have hc : db.emails.contains email_id = true := by
    simpa using hmem
  have hsome : (db.summaries.find? (fun s => s.email_id == email_id)).isSome := by
    rw [List.find?_isSome]
    obtain ⟨s, hs, he⟩ := h
    exact ⟨s, hs, by simp [he]⟩
  obtain ⟨s, hfind⟩ := Option.isSome_iff_exists.mp hsome
  exact ⟨s.id, by simp [triggerSummarize, generate_email_summary, hc, hfind, hmem]⟩

/-- C3 witness: concrete store with email 1 owning summary 5. -/
theorem trigger_summarize_idempotent_witness :
    ∃ sid, triggerSummarize 1 9 ⟨[1], [⟨5, 1⟩]⟩ =
      (SummaryResponse.alreadyExists sid, ⟨[1], [⟨5, 1⟩]⟩) :=
  trigger_summarize_idempotent 1 9 ⟨[1], [⟨5, 1⟩]⟩ (by decide)
    ⟨⟨5, 1⟩, by decide, rfl⟩

/-! ### LLM degradation (C4, C5) -/

/-- C4: with `OPENAI_API_KEY` configured, a raising provider call or
unparseable output is caught and answered with empty tasks/events; but
with no configured credential the function falls off the `try` and
returns Python `None` (contradicting its own `-> Dict[...]` annotation
and the claim).  Downstream, `process_email_for_reminders` creates no
Reminder and no CalendarEvent in either degraded case: on `None` the
`AttributeError` is caught and the transaction rolled back, on empty
tasks/events both loops are vacuous. -/
theorem extract_unconfigured_returns_none :
    extract_tasks_and_events false PyResult.exn = none ∧
    extract_tasks_and_events false (.ok (.ok ⟨[], []⟩)) = none ∧
    extract_tasks_and_events true PyResult.exn = some ⟨[], []⟩ ∧
    extract_tasks_and_events true (.ok .exn) = some ⟨[], []⟩ ∧
    (∀ (now : Int) (u e : Nat) (db : RemDB),
      process_email_for_reminders now u e none db = db ∧
      process_email_for_reminders now u e (some ⟨[], []⟩) db = db) :=
  ⟨rfl, rfl, rfl, rfl, fun _ _ _ _ => ⟨rfl, rfl⟩⟩

/-- C5: with a configured provider whose call raises, reply generation
does return the tone-keyed fallback template, and an unknown tone yields
the professional phrasing; but with ZERO configured providers the
function falls off the `try` block and returns Python `None`, not a
string — contradicting its own `-> str` annotation and the claim's
availability guarantee. -/
theorem generate_reply_none_when_no_provider :
    generate_reply "professional" false false PyResult.exn = none ∧
    (∀ tone : String, generate_reply tone false false (.ok "ignored") = none) ∧
    (∀ tone : String, generate_reply tone true false PyResult.exn =
      some (fallback_reply tone)) ∧
    (∀ tone : String, generate_reply tone false true PyResult.exn =
      some (fallback_reply tone)) ∧
    fallback_reply "sarcastic" = fallback_reply "professional" :=
  ⟨rfl, fun _ => rfl, fun _ => rfl, fun _ => rfl, rfl⟩

/-! ### Extraction persist step (C8) -/

theorem taskStep_foldl (now : Int) (u e : Nat) :
    ∀ (ts : List TaskData) (db : RemDB),
      ts.foldl (taskStep now u e) db =
        { db with reminders := db.reminders ++ ts.map (specTaskReminder now u e) } := by
  intro ts
  induction ts with
  | nil => intro db; simp
  | cons t0 ts ih =>
      intro db
      rw [List.foldl_cons, ih]
      simp [taskStep, specTaskReminder]

theorem eventStep_foldl (u e : Nat) :
    ∀ (es : List EventData) (db : RemDB),
      es.foldl (eventStep u e) db =
        { db with
          reminders := db.reminders ++ es.filterMap (specEventReminder u e),
          events := db.events ++ es.filterMap (specEventRecord u e) } := by
  intro es
  induction es with
  | nil => intro db; simp
  | cons e0 es ih =>
      intro db
      rw [List.foldl_cons, ih]
      cases h : e0.start_time with
      | none => simp [eventStep, specEventReminder, specEventRecord, h]
      | some st => simp [eventStep, specEventReminder, specEventRecord, h]

/-- C8 counterexample: the extractor returns one event, but that event has
no start time; the persist step then creates NO CalendarEvent and NO
companion Reminder (the loop hits `continue`, reminders.py lines
259-260), although one event was returned. -/
theorem event_without_start_counterexample :
    (process_email_for_reminders 0 1 2
        (some ⟨[], [⟨"standup", none, none, none, none, none⟩]⟩)
        ⟨[], []⟩).events.length = 0 ∧
    (process_email_for_reminders 0 1 2
        (some ⟨[], [⟨"standup", none, none, none, none, none⟩]⟩)
        ⟨[], []⟩).reminders.length = 0 ∧
    ([(⟨"standup", none, none, none, none, none⟩ : EventData)]).length = 1 :=
  ⟨rfl, rfl, rfl⟩

/-- C8 (amended): the persist step creates one Reminder per returned task
(due date defaulting to now + 7 days, notification time = due - 2 hours),
and, for each returned event THAT HAS A START TIME, one CalendarEvent
(end defaulting to start + 1 hour) plus a companion Reminder notifying at
start - 15 minutes; events without a start time create nothing. -/
theorem process_email_for_reminders_spec (now : Int) (u e : Nat)
    (ex : Extracted) (db : RemDB) :
    process_email_for_reminders now u e (some ex) db =
      { reminders := db.reminders ++ ex.tasks.map (specTaskReminder now u e)
          ++ ex.events.filterMap (specEventReminder u e),
        events := db.events ++ ex.events.filterMap (specEventRecord u e) } := by
  show ex.events.foldl (eventStep u e) (ex.tasks.foldl (taskStep now u e) db) = _
  rw [taskStep_foldl, eventStep_foldl]

/-! ### Snooze monotonicity (C10) -/

theorem applyOp_keeps_snoozed (op : RemOp) (r : ReminderRec)
    (h : r.is_snoozed = true) : (applyOp op r).is_snoozed = true := by
  cases op with
  | update now req => exact h
  | complete now => exact h
  | snooze t => rfl

theorem applyOps_keeps_snoozed :
    ∀ (ops : List RemOp) (r : ReminderRec), r.is_snoozed = true →
      (applyOps ops r).is_snoozed = true := by
  intro ops
  induction ops with
  | nil => intro r h; exact h
  | cons op ops ih =>
      intro r h
      exact ih (applyOp op r) (applyOp_keeps_snoozed op r h)

/-- C10: after a snooze, no sequence of API operations (updates,
completes, further snoozes) ever clears the snoozed flag, and the
overdue and upcoming queries — which filter on the flag alone, never
reading snooze-until — exclude the reminder at every query time and
horizon. -/
theorem snoozed_reminder_stays_excluded (r : ReminderRec) (t : Int)
    (ops : List RemOp) (now hours : Int) :
    (applyOps ops (snooze_reminder t r)).is_snoozed = true ∧
    overdueFilter now (applyOps ops (snooze_reminder t r)) = false ∧
    upcomingFilter now hours (applyOps ops (snooze_reminder t r)) = false ∧
    get_overdue_reminders now [applyOps ops (snooze_reminder t r)] = (0, []) ∧
    get_upcoming_reminders now hours [applyOps ops (snooze_reminder t r)] = (0, []) := by
  have hs : (applyOps ops (snooze_reminder t r)).is_snoozed = true :=
    applyOps_keeps_snoozed ops _ rfl
  have hov : overdueFilter now (applyOps ops (snooze_reminder t r)) = false := by
    simp [overdueFilter, hs]
  have hup : upcomingFilter now hours (applyOps ops (snooze_reminder t r)) = false := by
    simp [upcomingFilter, hs]
  refine ⟨hs, hov, hup, ?_, ?_⟩
  · simp [get_overdue_reminders, List.filter, hov]
  · simp [get_upcoming_reminders, List.filter, hup]

/-! ### Free-time scan (C9) -/

theorem mem_slotStarts {a b dur s : Nat} :
    s ∈ slotStarts a b dur ↔
      ∃ k, k < 9 ∧ s = a + 60 * k ∧ a + 60 * k + dur ≤ b := by
  simp only [slotStarts, List.mem_filterMap, List.mem_range]
  constructor
  · rintro ⟨k, hk, h⟩
    by_cases hc : a + 60 * k + dur ≤ b
    · rw [if_pos hc] at h
      exact ⟨k, hk, (Option.some_inj.mp h).symm, hc⟩
    · rw [if_neg hc] at h
      cases h
  · rintro ⟨k, hk, rfl, hc⟩
    exact ⟨k, hk, by rw [if_pos hc]⟩

theorem mem_free_slots_enum {startDay daysAhead duration : Nat}
    {busy : List (Nat × Nat)} {sl : Nat × Nat} :
    sl ∈ free_slots_enum startDay daysAhead duration busy ↔
      ∃ day k, day < daysAhead ∧ (startDay + day) % 7 < 5 ∧ k < 9 ∧
        sl.1 = (startDay + day) * 1440 + 540 + 60 * k ∧
        sl.2 = sl.1 + duration ∧
        sl.2 ≤ (startDay + day) * 1440 + 1020 ∧
        ∀ b ∈ busy, ¬(sl.1 < b.2 ∧ b.1 < sl.2) := by
  simp only [free_slots_enum, List.mem_flatMap, List.mem_range]
  constructor
  · rintro ⟨day, hday, hmem⟩
    by_cases hw : (startDay + day) % 7 < 5
    case neg => rw [if_neg hw] at hmem; cases hmem
    rw [if_pos hw] at hmem
    rw [List.mem_filterMap] at hmem
    obtain ⟨s, hs, hsome⟩ := hmem
    by_cases hc : busy.any (fun b => decide (s < b.2) && decide (s + duration > b.1))
    · rw [if_pos hc] at hsome; cases hsome
    · rw [if_neg hc] at hsome
      obtain ⟨k, hk, heq, hle⟩ := mem_slotStarts.mp hs
      have hsl : sl = (s, s + duration) := (Option.some_inj.mp hsome).symm
      subst hsl
      refine ⟨day, k, hday, hw, hk, heq, rfl, by omega, ?_⟩
      intro b hb hcontra
      exact hc (List.any_eq_true.mpr ⟨b, hb, by
        simp only [gt_iff_lt, Bool.and_eq_true, decide_eq_true_eq]
        exact ⟨hcontra.1, hcontra.2⟩⟩)
  · rintro ⟨day, k, hday, hw, hk, h1, h2, h3, hball⟩
    refine ⟨day, hday, ?_⟩
    rw [if_pos hw, List.mem_filterMap]
    refine ⟨sl.1, mem_slotStarts.mpr ⟨k, hk, h1, by omega⟩, ?_⟩
    have hanyf : ¬ busy.any
        (fun b => decide (sl.1 < b.2) && decide (sl.1 + duration > b.1)) = true := by
      intro hany
      obtain ⟨b, hb, hp⟩ := List.any_eq_true.mp hany
      simp only [gt_iff_lt, Bool.and_eq_true, decide_eq_true_eq] at hp
      exact hball b hb ⟨hp.1, by omega⟩
    rw [if_neg hanyf]
    have hsl : (sl.1, sl.1 + duration) = sl := by rw [← h2]
    rw [hsl]

/-- C9: the local free-time scan returns at most 10 slots, each taken from
the weekday enumeration; a pair lies in the enumeration exactly when it is
a 9am-5pm slot of some weekday in the window, at 1-hour granularity, of
the requested duration, and overlaps no busy interval under the
open-interval test slotStart < busyEnd and busyStart < slotEnd.  On the
concrete scenario of the spec — one-day window starting a Monday, busy
10:00-11:00 (minutes 600-660), duration 60 — the result keeps 09:00 and
11:00 and contains no slot starting 10:00 or 10:30. -/
theorem find_free_time_spec (startDay daysAhead duration : Nat)
    (busy : List (Nat × Nat)) :
    (find_free_time startDay daysAhead duration busy).length ≤ 10 ∧
    List.Sublist (find_free_time startDay daysAhead duration busy)
      (free_slots_enum startDay daysAhead duration busy) ∧
    (∀ sl : Nat × Nat,
      sl ∈ free_slots_enum startDay daysAhead duration busy ↔
        ∃ day k, day < daysAhead ∧ (startDay + day) % 7 < 5 ∧ k < 9 ∧
          sl.1 = (startDay + day) * 1440 + 540 + 60 * k ∧
          sl.2 = sl.1 + duration ∧
          sl.2 ≤ (startDay + day) * 1440 + 1020 ∧
          ∀ b ∈ busy, ¬(sl.1 < b.2 ∧ b.1 < sl.2)) ∧
    find_free_time 0 1 60 [(600, 660)] =
      [(540, 600), (660, 720), (720, 780), (780, 840), (840, 900),
       (900, 960), (960, 1020)] ∧
    ((find_free_time 0 1 60 [(600, 660)]).all
      (fun sl => sl.1 != 600 && sl.1 != 630)) = true ∧
    (540, 600) ∈ find_free_time 0 1 60 [(600, 660)] ∧
    (660, 720) ∈ find_free_time 0 1 60 [(600, 660)] := by
  refine ⟨List.length_take_le 10 _, List.take_sublist 10 _,
    fun sl => mem_free_slots_enum, by decide, by decide, by decide, by decide⟩

end EmailAgent
